import Mathlib

set_option maxHeartbeats 1000000

/-!
Shallow embedding of the log-routing pipeline (src/3.py): the filter
variants (SimpleLogFilter, ReLogFilter, LevelFilter), handlers as the
Logger's dispatch loop observes them, construction-time validation of
FileHandler and SocketHandler, and the Logger orchestrator itself.
Side effects of one `Logger.log` call are modelled as an explicit event
trace (filter evaluations, handler invocations, stderr diagnostics).
-/

/-- Model of a Python runtime value, covering the payload shapes the code
distinguishes: `str`, `int`, `float` (modelled as an exact rational, which
is faithful for the truncation behaviour `int()` is used for), `bool` and
`None`. -/
inductive PyVal where
  | str (s : String)
  | int (n : Int)
  | float (q : ℚ)
  | bool (b : Bool)
  | pynone
deriving DecidableEq

/-- The `isinstance(x, str)` test performed by `Logger.log`. -/
def PyVal.isStr : PyVal → Bool
  | .str _ => true
  | _ => false

/-- ASCII-faithful model of Python `str.upper()` applied to a string. -/
def pyUpperStr (s : String) : String :=
  ⟨s.data.map Char.toUpper⟩

/-- Python `x.upper()` on an embedded value: available on `str` only; any
other receiver raises `AttributeError`, modelled as an error result. -/
def pyUpper : PyVal → Except String String
  | .str s => Except.ok (pyUpperStr s)
  | _ => Except.error "AttributeError: no attribute upper"

/-- Truncation toward zero: the behaviour of Python `int()` on a float. -/
def pyTrunc (q : ℚ) : Int :=
  q.num.tdiv (q.den : Int)

/-- Accumulating base-10 evaluation of a digit run; `none` as soon as a
non-digit character appears. -/
def digitsValGo : List Char → Nat → Option Nat
  | [], acc => some acc
  | c :: cs, acc =>
    if c.isDigit then digitsValGo cs (acc * 10 + (c.toNat - 48)) else none

/-- Value of a nonempty all-digit character run, `none` otherwise. -/
def digitsVal : List Char → Option Nat
  | [] => none
  | cs => digitsValGo cs 0

/-- Surrounding-whitespace stripping, as Python `int()` applies to a
string argument. -/
def pyStripWs (cs : List Char) : List Char :=
  ((cs.dropWhile Char.isWhitespace).reverse.dropWhile Char.isWhitespace).reverse

/-- Python `int(s)` for a string `s`: optional surrounding whitespace, an
optional sign, then a nonempty digit run; anything else raises
`ValueError`. -/
def pyIntOfStr (s : String) : Except String Int :=
  match pyStripWs s.data with
  | '-' :: cs =>
    match digitsVal cs with
    | some n => Except.ok (-(n : Int))
    | none => Except.error ("invalid literal for int: " ++ s)
  | '+' :: cs =>
    match digitsVal cs with
    | some n => Except.ok (n : Int)
    | none => Except.error ("invalid literal for int: " ++ s)
  | cs =>
    match digitsVal cs with
    | some n => Except.ok (n : Int)
    | none => Except.error ("invalid literal for int: " ++ s)

/-- Python `int(x)` over the embedded values: identity on `int`, 0/1 on
`bool`, truncation toward zero on `float`, digit parsing on `str`
(`ValueError` on failure), `TypeError` on `None`. -/
def pyInt : PyVal → Except String Int
  | .int n => Except.ok n
  | .bool b => Except.ok (if b then 1 else 0)
  | .float q => Except.ok (pyTrunc q)
  | .str s => pyIntOfStr s
  | .pynone => Except.error "TypeError: int() argument is not a string or a number"

/-- Boolean character-list prefix test: Python `text.startswith(level)`. -/
def strPrefixB : List Char → List Char → Bool
  | [], _ => true
  | _ :: _, [] => false
  | a :: ps, b :: ts => a == b && strPrefixB ps ts

/-- Boolean character-list containment test: Python `pattern in text`. -/
def strInB (p t : List Char) : Bool :=
  match t with
  | [] => strPrefixB p []
  | _ :: ts => strPrefixB p t || strInB p ts

/-- The three filter variants of src/3.py. `rex` carries the compiled
pattern as its search function (the `re.compile` result, behaviourally a
total predicate on strings); `level` carries the already upper-cased
level string stored by `LevelFilter.__init__`. -/
inductive LogFilter where
  | simple (pat : String)
  | rex (srch : String → Bool)
  | level (lvl : String)

/-- Body of the `try` block of each `match` method. On `str` input none of
the three bodies can raise, so each returns `ok`: `pattern in text`,
`regex.search(text)` and `text.startswith(level)` are total on strings. -/
def LogFilter.matchBody : LogFilter → String → Except String Bool
  | .simple p, t => Except.ok (strInB p.data t.data)
  | .rex srch, t => Except.ok (srch t)
  | .level l, t => Except.ok (strPrefixB l.data t.data)

/-- The `except` clause shared by the three `match` methods: a raised
error is reported to stderr and converted into the return value `False`. -/
def tryFalse : Except String Bool → Except String Bool
  | .ok b => Except.ok b
  | .error _ => Except.ok false

/-- `match` as its caller observes it: the try-block body with any raised
error caught and turned into `False`. -/
def LogFilter.pymatchE (f : LogFilter) (t : String) : Except String Bool :=
  tryFalse (f.matchBody t)

/-- The boolean value a `match` call returns. -/
def LogFilter.pymatch (f : LogFilter) (t : String) : Bool :=
  match f.pymatchE t with
  | .ok b => b
  | .error _ => false

/-- `SimpleLogFilter.__init__` stores the pattern unchanged. -/
def SimpleLogFilter.init (pat : String) : LogFilter :=
  LogFilter.simple pat

/-- `ReLogFilter.__init__`: `re.compile(pattern)` either yields a compiled
search function or raises `re.error`; a compile failure is reported and
re-raised, so no object results. The regex compiler is external to the
repository, hence the constructor is modelled over the compile result. -/
def ReLogFilter.init (compiled : Except String (String → Bool)) : Except String LogFilter :=
  match compiled with
  | .ok r => Except.ok (LogFilter.rex r)
  | .error e => Except.error e

/-- `LevelFilter.__init__`: stores `level.upper()`; the `AttributeError`
raised by a non-string level is reported and re-raised. -/
def LevelFilter.init (level : PyVal) : Except String LogFilter :=
  match pyUpper level with
  | .ok u => Except.ok (LogFilter.level u)
  | .error e => Except.error e

/-- Outcome of one `handle` invocation as the Logger's dispatch loop
observes it: either the call returns, or it raises with a message. -/
inductive HandleOutcome where
  | ok
  | exn (msg : String)
deriving DecidableEq

/-- A handler as the Logger sees it: something invoked once per accepted
message whose invocation either returns or raises. -/
structure Handler where
  handle : String → HandleOutcome

/-- `FileHandler` retains only the validated file name. -/
structure FileHandler where
  filename : String
deriving DecidableEq

/-- `FileHandler.__init__`: `str(filename)`, then an eager
open-for-append check (open and close, no write); an open failure is
reported and re-raised. The filesystem is external, hence the open
attempt is an oracle argument. -/
def FileHandler.init (openAppend : String → Except String Unit) (filename : String) :
    Except String FileHandler :=
  match openAppend filename with
  | .ok _ => Except.ok ⟨filename⟩
  | .error e => Except.error e

/-- `SocketHandler` retains the host and the coerced port. -/
structure SocketHandler where
  host : String
  port : Int
deriving DecidableEq

/-- `SocketHandler.__init__`: `str(host)`, `int(port)`, then the range
check `0 < port < 65536` raising `ValueError` when it fails; any
`ValueError` or `TypeError` is reported and re-raised. -/
def SocketHandler.init (host : String) (port : PyVal) : Except String SocketHandler :=
  match pyInt port with
  | .error e => Except.error e
  | .ok p =>
    if 0 < p ∧ p < 65536 then Except.ok ⟨host, p⟩
    else Except.error "Port must be between 1 and 65535"

/-- Observable events of one `Logger.log` call: filter evaluations and
handler invocations (each identified by position in the respective
collection) and diagnostic writes to stderr. -/
inductive Event where
  | filterEval (idx : Nat) (result : Bool)
  | handlerInvoke (idx : Nat)
  | report (msg : String)
deriving DecidableEq

/-- A constructor argument as the untyped Python call site may supply it:
the expected list, `None`, or some other value (represented by an
integer) of which only truthiness and iterability matter. -/
inductive PyArg (α : Type) where
  | pynone
  | pylist (l : List α)
  | pyint (n : Int)

/-- Python truthiness of a constructor argument. -/
def PyArg.truthy {α : Type} : PyArg α → Bool
  | .pynone => false
  | .pylist l => !l.isEmpty
  | .pyint n => n != 0

/-- Python `list(x)`: copies a list, raises `TypeError` on a
non-iterable argument. -/
def PyArg.toPyList {α : Type} : PyArg α → Except String (List α)
  | .pylist l => Except.ok l
  | .pynone => Except.error "TypeError: NoneType object is not iterable"
  | .pyint _ => Except.error "TypeError: int object is not iterable"

/-- The Logger's state after construction: the snapshot copies of the two
collections. The class exposes no operation that adds or removes a filter
or a handler afterwards. -/
structure Logger where
  filters : List LogFilter
  handlers : List Handler

/-- `Logger.__init__`: `list(_filters) if _filters else []`, and likewise
for `_handlers`; a conversion failure is reported and re-raised. -/
def Logger.init (fArg : PyArg LogFilter) (hArg : PyArg Handler) : Except String Logger := do
  let fl ← if fArg.truthy then fArg.toPyList else pure []
  let hl ← if hArg.truthy then hArg.toPyList else pure []
  pure ⟨fl, hl⟩

/-- `all(f.match(text) for f in filters)` with Python's short-circuit,
recording every filter evaluation performed; `i` is the list position of
the first remaining filter. -/
def evalFilters : List LogFilter → Nat → String → Bool × List Event
  | [], _, _ => (true, [])
  | f :: fs, i, t =>
    if f.pymatch t then
      ((evalFilters fs (i + 1) t).1, Event.filterEval i true :: (evalFilters fs (i + 1) t).2)
    else
      (false, [Event.filterEval i false])

/-- The handler loop of `Logger.log`: every handler is invoked in order,
and a raise from `handle` is caught and reported before the loop moves to
the next handler. -/
def dispatchHandlers : List Handler → Nat → String → List Event
  | [], _, _ => []
  | h :: hs, i, t =>
    match h.handle t with
    | .ok => Event.handlerInvoke i :: dispatchHandlers hs (i + 1) t
    | .exn e =>
      Event.handlerInvoke i :: Event.report ("Handler error: " ++ e) ::
        dispatchHandlers hs (i + 1) t

/-- `Logger.log`. The outer try/except means the method always returns to
its caller; the observable behaviour of one call is its event trace. A
non-string payload raises `TypeError`, which the outer clause catches and
reports before anything else runs. -/
def Logger.log (L : Logger) (x : PyVal) : List Event :=
  match x with
  | .str t =>
    if (evalFilters L.filters 0 t).1 then
      (evalFilters L.filters 0 t).2 ++ dispatchHandlers L.handlers 0 t
    else
      (evalFilters L.filters 0 t).2
  | _ => [Event.report "Logging error: Log message must be a string"]

/-- Positions of the handlers invoked by a call, in invocation order. -/
def invokedIdx : List Event → List Nat
  | [] => []
  | .handlerInvoke i :: es => i :: invokedIdx es
  | _ :: es => invokedIdx es

/-- A Python list object over time: `valueAt n` is its contents after the
caller's first `n` mutations, so `valueAt 0` is the construction-time
value. -/
structure MutList (α : Type) where
  valueAt : Nat → List α

/-- Logger construction from live caller lists: `list()` copies the
construction-time contents of each. -/
def Logger.initSnap (fl : MutList LogFilter) (hl : MutList Handler) : Except String Logger :=
  Logger.init (.pylist (fl.valueAt 0)) (.pylist (hl.valueAt 0))

/-- A handler whose `handle` always raises (witness material). -/
def hFail : Handler :=
  ⟨fun _ => HandleOutcome.exn "boom"⟩

/-- A handler whose `handle` always succeeds (witness material). -/
def hRec : Handler :=
  ⟨fun _ => HandleOutcome.ok⟩

/-- A caller list never mutated (witness material). -/
def flStatic : MutList LogFilter :=
  ⟨fun _ => []⟩

/-- A caller list that gains a filter after Logger construction (witness
material). -/
def flMut : MutList LogFilter :=
  ⟨fun n => if n = 0 then [] else [LogFilter.simple "X"]⟩

/-- A caller handler list never mutated (witness material). -/
def hlStatic : MutList Handler :=
  ⟨fun _ => [hRec]⟩

/-- A caller handler list emptied after Logger construction (witness
material). -/
def hlMut : MutList Handler :=
  ⟨fun n => if n = 0 then [hRec] else []⟩

/-! ## Helper lemmas -/

/-- Unfolding `pymatch` for the substring filter. -/
theorem pymatch_simple (p t : String) :
    (LogFilter.simple p).pymatch t = strInB p.data t.data := rfl

/-- Unfolding `pymatch` for the regex filter. -/
theorem pymatch_rex (srch : String → Bool) (t : String) :
    (LogFilter.rex srch).pymatch t = srch t := rfl

/-- Unfolding `pymatch` for the level filter. -/
theorem pymatch_level (l t : String) :
    (LogFilter.level l).pymatch t = strPrefixB l.data t.data := rfl

/-- The boolean prefix test agrees with list prefixhood. -/
theorem strPrefixB_iff (p t : List Char) : strPrefixB p t = true ↔ p <+: t := by
  induction p generalizing t with
  | nil => simp [strPrefixB]
  | cons a ps ih =>
    cases t with
    | nil => simp [strPrefixB]
    | cons b ts =>
      simp [strPrefixB, Bool.and_eq_true, beq_iff_eq, List.cons_prefix_cons, ih]

/-- The accept bit of `evalFilters` is the conjunction of the matches. -/
theorem evalFilters_fst (fs : List LogFilter) (i : Nat) (t : String) :
    (evalFilters fs i t).1 = fs.all (fun f => f.pymatch t) := by
  induction fs generalizing i with
  | nil => rfl
  | cons f fs ih =>
    cases h : f.pymatch t <;> simp [evalFilters, h, ih]

/-- `invokedIdx` distributes over trace concatenation. -/
theorem invokedIdx_append (a b : List Event) :
    invokedIdx (a ++ b) = invokedIdx a ++ invokedIdx b := by
  induction a with
  | nil => rfl
  | cons e es ih => cases e <;> simp [invokedIdx, ih]

/-- Filter evaluation invokes no handler. -/
theorem invokedIdx_evalFilters (fs : List LogFilter) (i : Nat) (t : String) :
    invokedIdx (evalFilters fs i t).2 = [] := by
  induction fs generalizing i with
  | nil => rfl
  | cons f fs ih =>
    cases h : f.pymatch t <;> simp [evalFilters, h, invokedIdx, ih]

/-- Filter evaluation writes nothing to stderr: on string input no filter
body can raise, so the report branch of the catch clause never runs. -/
theorem report_not_mem_evalFilters (fs : List LogFilter) (i : Nat) (t : String) (m : String) :
    Event.report m ∉ (evalFilters fs i t).2 := by
  induction fs generalizing i with
  | nil => simp [evalFilters]
  | cons f fs ih =>
    cases h : f.pymatch t <;> simp [evalFilters, h, ih]

/-- The dispatch loop invokes every handler exactly once, in order. -/
theorem invokedIdx_dispatch (hs : List Handler) (i : Nat) (t : String) :
    invokedIdx (dispatchHandlers hs i t) = List.range' i hs.length := by
  induction hs generalizing i with
  | nil => rfl
  | cons h hs ih =>
    cases hh : h.handle t <;>
      simp [dispatchHandlers, hh, invokedIdx, ih, List.range'_succ]

/-- A raise from one handler is reported in the dispatch trace. -/
theorem report_mem_dispatch (hs : List Handler) (i : Nat) (t : String) (j : Nat)
    (hj : j < hs.length) (e : String)
    (he : (hs.get ⟨j, hj⟩).handle t = HandleOutcome.exn e) :
    Event.report ("Handler error: " ++ e) ∈ dispatchHandlers hs i t := by
  induction hs generalizing i j with
  | nil => exact absurd hj (Nat.not_lt_zero j)
  | cons h hs ih =>
    cases j with
    | zero =>
      simp only [List.get] at he
      simp [dispatchHandlers, he]
    | succ j =>
      simp only [List.get] at he
      have hmem := ih (i + 1) j (Nat.lt_of_succ_lt_succ hj) he
      cases hh : h.handle t <;> simp [dispatchHandlers, hh, hmem]

/-- Trace of a `log` call whose payload passes every filter. -/
theorem log_pass_trace (fs : List LogFilter) (hs : List Handler) (t : String)
    (h : fs.all (fun f => f.pymatch t) = true) :
    (Logger.mk fs hs).log (.str t) =
      (evalFilters fs 0 t).2 ++ dispatchHandlers hs 0 t := by
  simp [Logger.log, evalFilters_fst, h]

/-- Handlers invoked by a `log` call whose payload passes every filter. -/
theorem invoked_log_pass (fs : List LogFilter) (hs : List Handler) (t : String)
    (h : fs.all (fun f => f.pymatch t) = true) :
    invokedIdx ((Logger.mk fs hs).log (.str t)) = List.range hs.length := by
  rw [log_pass_trace fs hs t h, invokedIdx_append, invokedIdx_evalFilters,
    invokedIdx_dispatch, List.range_eq_range']
  rfl

/-- With an empty handler collection no handler is ever invoked. -/
theorem invoked_log_noHandlers (fs : List LogFilter) (t : String) :
    invokedIdx ((Logger.mk fs []).log (.str t)) = [] := by
  cases hb : (evalFilters fs 0 t).1 <;>
    simp [Logger.log, hb, dispatchHandlers, invokedIdx_append, invokedIdx_evalFilters,
      invokedIdx]

/-- `Logger.__init__` applied to two genuine lists copies them. -/
theorem init_pylist (l : List LogFilter) (m : List Handler) :
    Logger.init (.pylist l) (.pylist m) = Except.ok ⟨l, m⟩ := by
  cases l <;> cases m <;> rfl

/-! ## Claim theorems -/

/-- Claim C1 — fan-out isolation: for every text that passes all filters
and every handler list, `Logger.log` invokes every handler exactly once
in construction order, and a raise from one handler's `handle` is caught
and reported without preventing the invocation of any later handler. -/
theorem fanOutIsolation (fs : List LogFilter) (hs : List Handler) (t : String)
    (hpass : ∀ f ∈ fs, f.pymatch t = true) :
    invokedIdx ((Logger.mk fs hs).log (.str t)) = List.range hs.length ∧
    ∀ (j : Nat) (hj : j < hs.length) (e : String),
      (hs.get ⟨j, hj⟩).handle t = HandleOutcome.exn e →
      Event.report ("Handler error: " ++ e) ∈ (Logger.mk fs hs).log (.str t) := by
  have hall : fs.all (fun f => f.pymatch t) = true := List.all_eq_true.mpr hpass
  refine ⟨invoked_log_pass fs hs t hall, ?_⟩
  intro j hj e he
  rw [log_pass_trace fs hs t hall]
  exact List.mem_append_right _ (report_mem_dispatch hs 0 t j hj e he)

/-- Witness for C1: with `[hFail, hRec]` (the first handler always
raises), a message passing the empty filter set still invokes both
handlers, in order, and the raise is reported — so the second handler
records exactly one call. -/
theorem fanOutIsolation_witness :
    invokedIdx ((Logger.mk [] [hFail, hRec]).log (.str "T")) =
      List.range ([hFail, hRec] : List Handler).length ∧
    ∀ (j : Nat) (hj : j < ([hFail, hRec] : List Handler).length) (e : String),
      (([hFail, hRec] : List Handler).get ⟨j, hj⟩).handle "T" = HandleOutcome.exn e →
      Event.report ("Handler error: " ++ e) ∈ (Logger.mk [] [hFail, hRec]).log (.str "T") :=
  fanOutIsolation [] [hFail, hRec] "T" (by simp)

/-- Claim C2 — silent drop on filter rejection: if at least one filter of
the Logger returns `false` for the text, `log` invokes no handler and
writes no diagnostic. -/
theorem filterRejectSilent (fs : List LogFilter) (hs : List Handler) (t : String)
    (hrej : ∃ f ∈ fs, f.pymatch t = false) :
    invokedIdx ((Logger.mk fs hs).log (.str t)) = [] ∧
    ∀ m, Event.report m ∉ (Logger.mk fs hs).log (.str t) := by
  have hall : fs.all (fun f => f.pymatch t) = false := by
    obtain ⟨f, hf, hmf⟩ := hrej
    exact List.all_eq_false.mpr ⟨f, hf, by simp [hmf]⟩
  have hlog : (Logger.mk fs hs).log (.str t) = (evalFilters fs 0 t).2 := by
    simp [Logger.log, evalFilters_fst, hall]
  rw [hlog]
  exact ⟨invokedIdx_evalFilters fs 0 t, fun m => report_not_mem_evalFilters fs 0 t m⟩

/-- Witness for C2: a substring filter for "Z" rejects "x", so nothing is
dispatched and nothing is reported. -/
theorem filterRejectSilent_witness :
    invokedIdx ((Logger.mk [LogFilter.simple "Z"] [hRec]).log (.str "x")) = [] ∧
    ∀ m, Event.report m ∉ (Logger.mk [LogFilter.simple "Z"] [hRec]).log (.str "x") :=
  filterRejectSilent [LogFilter.simple "Z"] [hRec] "x"
    ⟨LogFilter.simple "Z", by simp, by decide⟩

/-- Claim C3 — empty filter collection: the conjunction over no filters
is vacuously true, so `log` dispatches the text to every handler exactly
once, in construction order. -/
theorem emptyFiltersFullDispatch (hs : List Handler) (t : String) :
    invokedIdx ((Logger.mk [] hs).log (.str t)) = List.range hs.length :=
  invoked_log_pass [] hs t rfl

/-- Claim C4 — non-string payload: `log` never raises to its caller (it
is a total function into its event trace); a non-string payload makes the
type check raise `TypeError`, which the outer clause catches and reports,
so the whole trace is that one diagnostic: no filter is evaluated and no
handler is invoked, and the Logger's collections are untouched (`log`
never writes them). -/
theorem logNonString (L : Logger) (x : PyVal) (hx : x.isStr = false) :
    L.log x = [Event.report "Logging error: Log message must be a string"] ∧
    invokedIdx (L.log x) = [] ∧
    (∀ i b, Event.filterEval i b ∉ L.log x) ∧
    (∀ i, Event.handlerInvoke i ∉ L.log x) := by
  have hlog : L.log x = [Event.report "Logging error: Log message must be a string"] := by
    cases x <;> first | rfl | simp [PyVal.isStr] at hx
  refine ⟨hlog, ?_, ?_, ?_⟩ <;> simp [hlog, invokedIdx]

/-- Witness for C4: logging the integer `123` (the demo's own
non-string probe) yields exactly the caught-and-reported type error. -/
theorem logNonString_witness :
    (Logger.mk [] [hRec]).log (.int 123) =
      [Event.report "Logging error: Log message must be a string"] ∧
    invokedIdx ((Logger.mk [] [hRec]).log (.int 123)) = [] ∧
    (∀ i b, Event.filterEval i b ∉ (Logger.mk [] [hRec]).log (.int 123)) ∧
    (∀ i, Event.handlerInvoke i ∉ (Logger.mk [] [hRec]).log (.int 123)) :=
  logNonString (Logger.mk [] [hRec]) (.int 123) rfl

/-- Claim C5 — `LevelFilter` upper-cases its level at construction, and
`match` is a case-sensitive prefix test against that upper-cased level;
in particular the filter built from "info" accepts "INFO: x" and rejects
"info: x". -/
theorem prefixLevelUpper (lvl T : String) :
    LevelFilter.init (.str lvl) = Except.ok (LogFilter.level (pyUpperStr lvl)) ∧
    ((LogFilter.level (pyUpperStr lvl)).pymatch T = true ↔ (pyUpperStr lvl).data <+: T.data) ∧
    (LogFilter.level (pyUpperStr "info")).pymatch "INFO: x" = true ∧
    (LogFilter.level (pyUpperStr "info")).pymatch "info: x" = false := by
  refine ⟨rfl, ?_, by decide, by decide⟩
  rw [pymatch_level]
  exact strPrefixB_iff (pyUpperStr lvl).data T.data

/-- Claim C6 — construction errors propagate: a regex compile failure, a
level that cannot be upper-cased, a path that cannot be opened for
append, and a port that is out of range or not coercible each make the
respective constructor raise, so no object results. -/
theorem constructionErrors :
    (∀ e : String, ReLogFilter.init (Except.error e) = Except.error e) ∧
    (∀ v : PyVal, v.isStr = false →
      LevelFilter.init v = Except.error "AttributeError: no attribute upper") ∧
    (∀ (oa : String → Except String Unit) (fn e : String),
      oa fn = Except.error e → FileHandler.init oa fn = Except.error e) ∧
    (∀ (host : String) (p : PyVal) (e : String),
      pyInt p = Except.error e → SocketHandler.init host p = Except.error e) ∧
    (∀ (host : String) (p : PyVal) (n : Int),
      pyInt p = Except.ok n → ¬(0 < n ∧ n < 65536) →
      SocketHandler.init host p = Except.error "Port must be between 1 and 65535") := by
  refine ⟨fun e => rfl, ?_, ?_, ?_, ?_⟩
  · intro v hv
    cases v <;> first | rfl | simp [PyVal.isStr] at hv
  · intro oa fn e h
    simp [FileHandler.init, h]
  · intro host p e h
    simp [SocketHandler.init, h]
  · intro host p n h hn
    simp [SocketHandler.init, h, hn]

/-- Witness for C6: one concrete failing input per constructor — an
uncompilable pattern, the integer level `3`, a permission-denied path,
and the out-of-range port `70000`. -/
theorem constructionErrors_witness :
    ReLogFilter.init (Except.error "bad pattern") = Except.error "bad pattern" ∧
    LevelFilter.init (PyVal.int 3) = Except.error "AttributeError: no attribute upper" ∧
    FileHandler.init (fun _ => Except.error "Permission denied") "log.txt" =
      Except.error "Permission denied" ∧
    SocketHandler.init "localhost" PyVal.pynone =
      Except.error "TypeError: int() argument is not a string or a number" ∧
    SocketHandler.init "localhost" (PyVal.int 70000) =
      Except.error "Port must be between 1 and 65535" :=
  ⟨constructionErrors.1 "bad pattern",
   constructionErrors.2.1 (PyVal.int 3) rfl,
   constructionErrors.2.2.1 (fun _ => Except.error "Permission denied") "log.txt"
     "Permission denied" rfl,
   constructionErrors.2.2.2.1 "localhost" PyVal.pynone
     "TypeError: int() argument is not a string or a number" rfl,
   constructionErrors.2.2.2.2 "localhost" (PyVal.int 70000) 70000 rfl (by decide)⟩

/-- Claim C7 — filter `match` totality: for every constructed filter
variant and every text, `match` returns a boolean and never raises (its
result is always `ok` of the returned boolean), and the shared catch
clause converts any raised error into the return value `False`. -/
theorem matchTotal :
    (∀ (f : LogFilter) (t : String), f.pymatchE t = Except.ok (f.pymatch t)) ∧
    (∀ e : String, tryFalse (Except.error e) = Except.ok false) := by
  refine ⟨?_, fun e => rfl⟩
  intro f t
  cases f <;> rfl

/-- Claim C8 — snapshot semantics: `Logger.__init__` copies both
collections, so two construction calls seeing the same construction-time
contents yield the same Logger regardless of any later mutation of the
caller's list objects; the stored collections are exactly the
construction-time values. -/
theorem snapshotSemantics (fl fl2 : MutList LogFilter) (hl hl2 : MutList Handler)
    (hf : fl.valueAt 0 = fl2.valueAt 0) (hh : hl.valueAt 0 = hl2.valueAt 0) :
    Logger.initSnap fl hl = Logger.initSnap fl2 hl2 ∧
    Logger.initSnap fl hl = Except.ok ⟨fl.valueAt 0, hl.valueAt 0⟩ := by
  constructor
  · simp [Logger.initSnap, hf, hh]
  · simp [Logger.initSnap, init_pylist]

/-- Witness for C8: a caller list mutated after construction (`flMut`
gains a filter, `hlMut` loses its handler) leaves the Logger identical to
the one built from the never-mutated lists. -/
theorem snapshotSemantics_witness :
    Logger.initSnap flStatic hlStatic = Logger.initSnap flMut hlMut ∧
    Logger.initSnap flStatic hlStatic =
      Except.ok ⟨flStatic.valueAt 0, hlStatic.valueAt 0⟩ :=
  snapshotSemantics flStatic flMut hlStatic hlMut rfl rfl

/-- Claim C9 — `None` (or any falsy) collection arguments: construction
succeeds and behaves as if the collection were empty; with `None` filters
every handler is dispatched to, with `None` handlers no handler is
invoked. -/
theorem noneCollections (fsl : List LogFilter) (hsl : List Handler) (t : String) :
    Logger.init PyArg.pynone (.pylist hsl) = Except.ok ⟨[], hsl⟩ ∧
    invokedIdx ((Logger.mk [] hsl).log (.str t)) = List.range hsl.length ∧
    Logger.init (.pylist fsl) PyArg.pynone = Except.ok ⟨fsl, []⟩ ∧
    invokedIdx ((Logger.mk fsl []).log (.str t)) = [] ∧
    (∀ (a : PyArg LogFilter) (b : PyArg Handler),
      a.truthy = false → b.truthy = false → Logger.init a b = Except.ok ⟨[], []⟩) := by
  refine ⟨by cases hsl <;> rfl, invoked_log_pass [] hsl t rfl,
    by cases fsl <;> rfl, invoked_log_noHandlers fsl t, ?_⟩
  intro a b ha hb
  simp [Logger.init, ha, hb]
  rfl

/-- Witness for C9: `Logger(None, [hRec])` stores an empty filter list
and the given handlers, and two falsy (integer-zero) arguments behave as
two empty collections. -/
theorem noneCollections_witness :
    Logger.init PyArg.pynone (.pylist [hRec]) = Except.ok ⟨[], [hRec]⟩ ∧
    Logger.init (PyArg.pyint 0) (PyArg.pyint 0) = Except.ok ⟨[], []⟩ :=
  ⟨(noneCollections [] [hRec] "x").1,
   (noneCollections [] [] "x").2.2.2.2 (PyArg.pyint 0) (PyArg.pyint 0) rfl rfl⟩

/-- Claim C10 — port coercion: `SocketHandler` accepts any port value
`int()` can coerce whose integer value lies in 1–65535, storing the
coerced integer; floats are truncated toward zero (80.9 is stored as 80)
and numeric strings are parsed. -/
theorem portCoercion :
    (∀ (host : String) (p : PyVal) (n : Int),
      pyInt p = Except.ok n → 1 ≤ n → n ≤ 65535 →
      SocketHandler.init host p = Except.ok ⟨host, n⟩) ∧
    pyInt (PyVal.float (mkRat 809 10)) = Except.ok 80 ∧
    pyInt (PyVal.float (mkRat (-3) 2)) = Except.ok (-1) ∧
    pyInt (PyVal.str "8080") = Except.ok 8080 := by
  refine ⟨?_, rfl, rfl, rfl⟩
  intro host p n hp h1 h2
  have hcond : 0 < n ∧ n < 65536 := ⟨by omega, by omega⟩
  simp [SocketHandler.init, hp, hcond]

/-- Witness for C10: port `80.9` is accepted and stored as `80`. -/
theorem portCoercion_witness :
    SocketHandler.init "example.com" (PyVal.float (mkRat 809 10)) =
      Except.ok ⟨"example.com", 80⟩ :=
  portCoercion.1 "example.com" (PyVal.float (mkRat 809 10)) 80 rfl
    (by decide) (by decide)
